import Mathlib

/-!
Verification development for the ServerClient_Python repository.

The repository serves a machine-learning policy over HTTP.  Its core pieces,
embedded shallowly below, are:

* `binary_protocol.py` — `dict_to_binary` / `binary_to_dict`, the binary wire
  codec (CPython `pickle`, protocol 5);
* `Flask_Demo1/base64_tools.py` — `serialize_np` / `deserialize_np` /
  `serialize_dict` / `deserialize_dict`, the textual base64 codec
  (numpy NPY dump + `base64.b64encode`, per-key marker prefixes);
* `request_tools.py` — `send_inference_request`, the retrying HTTP client;
* `server.py` — the `/infer` endpoint, the `/update_model` hot-swap endpoint
  with its `is_within_directory` / `safe_extract` path-traversal guard;
* `Flask_Demo1/GPU_LeRobot_SmolVLA_Server.py` — the textual `/infer` endpoint
  with optional transport-level gzip (`decode_request_data` /
  `encode_request_data`).

Modelling conventions.  Python `str` is modelled as `List Char` (a sequence of
code points), Python `bytes` as `List Nat` with every element `< 256`.  Effects
are made explicit: fallible operations return `Except`/`Option`, the mutable
server globals (`model`, `device`) become explicit state, HTTP and model
collaborators become oracle parameters.  Library calls made by the source
(`pickle`, `np.save`/`np.load`, `gzip`, `json`) are modelled as concrete
executable codecs that satisfy the libraries' documented contracts
(self-describing, lossless); their exact byte layout is not semantically
relevant to any claim and is abstracted.
-/

namespace ServerClient

/-! Python strings as lists of code points. -/

abbrev PyStr := List Char

/-! Self-delimiting byte encodings used by the codec models.  A natural number
is emitted as its base-256 digits, each digit preceded by a `1` marker byte,
terminated by a `0` byte; every emitted byte is `< 256`. -/

/-- Prepend the digit list `ds`, each digit tagged with a `1` byte, to `tail`. -/
def encDigits (ds : List Nat) (tail : List Nat) : List Nat :=
  ds.foldr (fun d acc => 1 :: d :: acc) tail

/-- Self-delimiting encoding of a natural number (base-256 digits). -/
def encNat (n : Nat) : List Nat :=
  encDigits (Nat.digits 256 n) [0]

/-- Read back a tagged digit list, returning the digits and the remainder. -/
def decDigits : List Nat → Option (List Nat × List Nat)
  | 0 :: rest => some ([], rest)
  | 1 :: d :: rest =>
    match decDigits rest with
    | some (ds, r) => some (d :: ds, r)
    | none => none
  | _ => none

/-- Decode a natural number encoded by `encNat`, returning the remainder. -/
def decNat (bs : List Nat) : Option (Nat × List Nat) :=
  match decDigits bs with
  | some (ds, r) => some (Nat.ofDigits 256 ds, r)
  | none => none

/-! Length-prefixed sequences and the scalar encoders built on them. -/

/-- Length-prefixed encoding of a list, one `f`-encoded element after another. -/
def encCount (f : α → List Nat) (xs : List α) : List Nat :=
  encNat xs.length ++ xs.foldr (fun x acc => f x ++ acc) []

/-- Decode exactly `n` elements with the element decoder `f`. -/
def decCount (f : List Nat → Option (α × List Nat)) :
    Nat → List Nat → Option (List α × List Nat)
  | 0, bs => some ([], bs)
  | n + 1, bs =>
    match f bs with
    | some (x, r) =>
      match decCount f n r with
      | some (xs, r2) => some (x :: xs, r2)
      | none => none
    | none => none

/-- Decode a length-prefixed list encoded by `encCount`. -/
def decList (f : List Nat → Option (α × List Nat)) (bs : List Nat) :
    Option (List α × List Nat) :=
  match decNat bs with
  | some (n, r) => decCount f n r
  | none => none

/-- Encoding of one code point. -/
def encChar (c : Char) : List Nat := encNat c.toNat

/-- Decoder matching `encChar`. -/
def decChar (bs : List Nat) : Option (Char × List Nat) :=
  match decNat bs with
  | some (n, r) => some (Char.ofNat n, r)
  | none => none

/-- Encoding of a Python string (its code points, length-prefixed). -/
def encPyStr (s : PyStr) : List Nat := encCount encChar s

/-- Decoder matching `encPyStr`. -/
def decPyStr (bs : List Nat) : Option (PyStr × List Nat) := decList decChar bs

/-- Encoding of a Python integer (sign byte then magnitude). -/
def encInt : Int → List Nat
  | Int.ofNat n => 0 :: encNat n
  | Int.negSucc n => 1 :: encNat n

/-- Decoder matching `encInt`. -/
def decInt : List Nat → Option (Int × List Nat)
  | 0 :: bs =>
    match decNat bs with
    | some (n, r) => some (Int.ofNat n, r)
    | none => none
  | 1 :: bs =>
    match decNat bs with
    | some (n, r) => some (Int.negSucc n, r)
    | none => none
  | _ => none

/-! Data model: payloads exchanged with the inference endpoint. -/

/-- Supported numpy element types (`uint8`, `float32`, `float64`). -/
inductive Dtype
  | uint8
  | float32
  | float64
  deriving DecidableEq, Repr

/-- Element size in bytes. -/
def Dtype.itemsize : Dtype → Nat
  | uint8 => 1
  | float32 => 4
  | float64 => 8

/-- Wire tag of a dtype. -/
def Dtype.tag : Dtype → Nat
  | uint8 => 0
  | float32 => 1
  | float64 => 2

/-- Inverse of `Dtype.tag`. -/
def tagDtype : Nat → Option Dtype
  | 0 => some Dtype.uint8
  | 1 => some Dtype.float32
  | 2 => some Dtype.float64
  | _ => none

/-- A C-contiguous numpy array: dtype, shape, and its flat row-major byte
buffer.  Contiguity is by construction — `data` is the flat buffer, mirroring
the source's invariant that arrays are made C-contiguous before use. -/
structure NDArray where
  dtype : Dtype
  shape : List Nat
  data : List Nat
  deriving DecidableEq, Repr

/-- A torch tensor as the server materializes it: the underlying array plus
the device it was moved to (`None` models an unset global `device`). -/
structure TorchTensor where
  arr : NDArray
  device : Option PyStr
  deriving DecidableEq, Repr

/-- A payload value: UTF-8 string, Python int, Python float (its IEEE-754
bit pattern, which serialization preserves exactly), numpy array, or torch
tensor. -/
inductive PyVal
  | str (s : PyStr)
  | int (i : Int)
  | float (bits : Nat)
  | arr (a : NDArray)
  | tensor (t : TorchTensor)
  deriving DecidableEq, Repr

/-- A Python dict with string keys, in insertion order. -/
abbrev Payload := List (PyStr × PyVal)

/-! The binary wire codec of `binary_protocol.py`.  In the source,
`dict_to_binary` is `pickle.dumps(data, protocol=5, fix_imports=False)` and
`binary_to_dict` is `pickle.loads`.  The pickle byte layout itself is not
semantically relevant to any claim; the codec is modelled as a concrete
executable self-describing tagged encoding with pickle's contract at payload
types: `loads(dumps(x)) == x`, and failure on malformed or truncated input. -/

/-- Encoding of one array: dtype tag, shape, flat data. -/
def encNDArray (a : NDArray) : List Nat :=
  a.dtype.tag :: encCount encNat a.shape ++ encCount encNat a.data

/-- Decoder matching `encNDArray`. -/
def decNDArray (bs : List Nat) : Option (NDArray × List Nat) :=
  match bs with
  | t :: bs =>
    match tagDtype t with
    | some dt =>
      match decList decNat bs with
      | some (shape, r) =>
        match decList decNat r with
        | some (data, r2) => some (⟨dt, shape, data⟩, r2)
        | none => none
      | none => none
    | none => none
  | [] => none

/-- Encoding of an optional string (used for a tensor's device). -/
def encOptStr : Option PyStr → List Nat
  | none => 0 :: []
  | some s => 1 :: encPyStr s

/-- Decoder matching `encOptStr`. -/
def decOptStr : List Nat → Option (Option PyStr × List Nat)
  | 0 :: bs => some (none, bs)
  | 1 :: bs =>
    match decPyStr bs with
    | some (s, r) => some (some s, r)
    | none => none
  | _ => none

/-- Encoding of one payload value. -/
def encVal : PyVal → List Nat
  | PyVal.str s => 0 :: encPyStr s
  | PyVal.int i => 1 :: encInt i
  | PyVal.float b => 2 :: encNat b
  | PyVal.arr a => 3 :: encNDArray a
  | PyVal.tensor t => 4 :: encNDArray t.arr ++ encOptStr t.device

/-- Decoder matching `encVal`. -/
def decVal : List Nat → Option (PyVal × List Nat)
  | 0 :: bs =>
    match decPyStr bs with
    | some (s, r) => some (PyVal.str s, r)
    | none => none
  | 1 :: bs =>
    match decInt bs with
    | some (i, r) => some (PyVal.int i, r)
    | none => none
  | 2 :: bs =>
    match decNat bs with
    | some (b, r) => some (PyVal.float b, r)
    | none => none
  | 3 :: bs =>
    match decNDArray bs with
    | some (a, r) => some (PyVal.arr a, r)
    | none => none
  | 4 :: bs =>
    match decNDArray bs with
    | some (a, r) =>
      match decOptStr r with
      | some (d, r2) => some (PyVal.tensor ⟨a, d⟩, r2)
      | none => none
    | none => none
  | _ => none

/-- Encoding of one dict entry. -/
def encEntry (e : PyStr × PyVal) : List Nat := encPyStr e.1 ++ encVal e.2

/-- Decoder matching `encEntry`. -/
def decEntry (bs : List Nat) : Option ((PyStr × PyVal) × List Nat) :=
  match decPyStr bs with
  | some (k, r) =>
    match decVal r with
    | some (v, r2) => some ((k, v), r2)
    | none => none
  | none => none

/-- Model of `binary_protocol.dict_to_binary` (`pickle.dumps`, protocol 5):
serialize a payload dict to a self-describing binary stream. -/
def dict_to_binary (data : Payload) : List Nat :=
  encCount encEntry data

/-- Model of `binary_protocol.binary_to_dict` (`pickle.loads`): restore the
payload from the binary stream, failing on malformed or truncated input. -/
def binary_to_dict (data : List Nat) : Except String Payload :=
  match decList decEntry data with
  | some (p, _) => Except.ok p
  | none => Except.error "UnpicklingError: invalid or truncated stream"

/-! The textual base64 codec of `Flask_Demo1/base64_tools.py`.  `serialize_np`
is `base64.b64encode(np.save(arr))` (an NPY dump, `allow_pickle=False`),
`deserialize_np` its inverse.  Base64 is modelled exactly (RFC 4648 alphabet
and padding); the NPY container is modelled as its magic followed by the
array's self-describing dump (dtype, shape, flat data). -/

/-- The standard base64 alphabet. -/
def b64Alphabet : List Char :=
  "ABCDEFGHIJKLMNOPQRSTUVWXYZabcdefghijklmnopqrstuvwxyz0123456789+/".toList

/-- Character for a six-bit group. -/
def sextetChar (n : Nat) : Char := b64Alphabet.getD n 'A'

/-- Index of a base64 character, `none` for a character outside the
alphabet. -/
def charSextet (c : Char) : Option Nat :=
  let i := b64Alphabet.indexOf c
  if i < 64 then some i else none

/-- Model of `base64.b64encode`: bytes to base64 text with `=` padding. -/
def b64EncodeBytes : List Nat → List Char
  | [] => []
  | [a] => [sextetChar (a / 4), sextetChar (a % 4 * 16), '=', '=']
  | [a, b] => [sextetChar (a / 4), sextetChar (a % 4 * 16 + b / 16),
      sextetChar (b % 16 * 4), '=']
  | a :: b :: c :: rest =>
    sextetChar (a / 4) :: sextetChar (a % 4 * 16 + b / 16) ::
      sextetChar (b % 16 * 4 + c / 64) :: sextetChar (c % 64) ::
      b64EncodeBytes rest

/-- Model of `base64.b64decode`: base64 text back to bytes, `none` on input
whose length is not a multiple of four or with malformed padding
(`binascii.Error` in Python). -/
def b64DecodeChars : List Char → Option (List Nat)
  | [] => some []
  | c1 :: c2 :: c3 :: c4 :: rest =>
    match charSextet c1, charSextet c2 with
    | some s1, some s2 =>
      if c3 = '=' ∧ c4 = '=' ∧ rest = [] then
        some [s1 * 4 + s2 / 16]
      else if c4 = '=' ∧ rest = [] then
        match charSextet c3 with
        | some s3 => some [s1 * 4 + s2 / 16, s2 % 16 * 16 + s3 / 4]
        | none => none
      else
        match charSextet c3, charSextet c4, b64DecodeChars rest with
        | some s3, some s4, some bytes =>
          some ((s1 * 4 + s2 / 16) :: (s2 % 16 * 16 + s3 / 4) ::
            (s3 % 4 * 64 + s4) :: bytes)
        | _, _, _ => none
    | _, _ => none
  | _ => none

/-! The NPY container written by `np.save` and read by `np.load`
(`allow_pickle=False`): the NPY magic followed by the array's self-describing
dump (dtype descriptor, shape, raw data). -/

/-- The NPY magic bytes `\\x93NUMPY`. -/
def npyMagic : List Nat := [147, 78, 85, 77, 80, 89]

/-- Model of `np.save` into a fresh buffer: NPY magic, then dtype, shape and
flat data of the (C-contiguous) array. -/
def npySaveBytes (arr : NDArray) : List Nat := npyMagic ++ encNDArray arr

/-- Model of `np.load` from a buffer: parse the NPY container back into an
array, failing on malformed input. -/
def npyLoadBytes (bs : List Nat) : Except String NDArray :=
  if npyMagic.isPrefixOf bs then
    match decNDArray (bs.drop 6) with
    | some (a, _) => Except.ok a
    | none => Except.error "ValueError: failed to interpret buffer as npy"
  else Except.error "ValueError: not an npy file"

/-- Model of `base64_tools.serialize_np`: dump the array in NPY format and
base64-encode the buffer into a string. -/
def serialize_np (arr : NDArray) : PyStr := b64EncodeBytes (npySaveBytes arr)

/-- Model of `base64_tools.deserialize_np`: base64-decode the string and read
the NPY buffer back into an array. -/
def deserialize_np (b64_str : PyStr) : Except String NDArray :=
  match b64DecodeChars b64_str with
  | some bytes => npyLoadBytes bytes
  | none => Except.error "binascii.Error: invalid base64-encoded string"

/-! The dict level of `base64_tools.py`: `serialize_dict` rewrites each
array- or tensor-valued entry to a marker-prefixed key holding the base64
string; `deserialize_dict` reverses it by marker sniffing on the key. -/

/-- The key marker `base64numpy_` used for numpy-array values. -/
def npyMarker : PyStr := "base64numpy_".toList

/-- The key marker `base64torch_` used for torch-tensor values. -/
def torchMarker : PyStr := "base64torch_".toList

/-- Model of `base64_tools.serialize_dict`. -/
def serialize_dict (d : Payload) : Payload :=
  d.map fun e =>
    match e with
    | (k, PyVal.arr a) => (npyMarker ++ k, PyVal.str (serialize_np a))
    | (k, PyVal.tensor t) => (torchMarker ++ k, PyVal.str (serialize_np t.arr))
    | (k, v) => (k, v)

/-- Model of `base64_tools.deserialize_dict`: entries whose key starts with a
marker are base64-decoded back into arrays (tensors are additionally moved to
`device`); the first failure aborts the whole call, as the Python exception
would. -/
def deserialize_dict (device : Option PyStr) : Payload → Except String Payload
  | [] => Except.ok []
  | (k, v) :: rest =>
    if npyMarker.isPrefixOf k then
      match v with
      | PyVal.str s =>
        match deserialize_np s with
        | Except.ok a =>
          match deserialize_dict device rest with
          | Except.ok r => Except.ok ((k.drop 12, PyVal.arr a) :: r)
          | Except.error e => Except.error e
        | Except.error e => Except.error e
      | _ => Except.error "TypeError: argument should be a bytes-like object or ASCII string"
    else if torchMarker.isPrefixOf k then
      match v with
      | PyVal.str s =>
        match deserialize_np s with
        | Except.ok a =>
          match deserialize_dict device rest with
          | Except.ok r => Except.ok ((k.drop 12, PyVal.tensor ⟨a, device⟩) :: r)
          | Except.error e => Except.error e
        | Except.error e => Except.error e
      | _ => Except.error "TypeError: argument should be a bytes-like object or ASCII string"
    else
      match deserialize_dict device rest with
      | Except.ok r => Except.ok ((k, v) :: r)
      | Except.error e => Except.error e

/-- Entries in the scope of the round-trip claim: the value is a string,
number, or numpy buffer (not a torch tensor, whose device attribute is
rewritten by `deserialize_dict`), and a non-buffer value's key must not start
with a codec marker. -/
def markerFreeEntry : PyStr × PyVal → Bool
  | (_, PyVal.arr _) => true
  | (_, PyVal.tensor _) => false
  | (k, _) => !(npyMarker.isPrefixOf k || torchMarker.isPrefixOf k)

/-- Every value is a string, number, or numpy buffer, and no string/number
value sits under a key starting with `base64numpy_` or `base64torch_`. -/
def markerFree (p : Payload) : Bool := p.all markerFreeEntry

/-! The HTTP client of `request_tools.py`.  `send_inference_request`
serializes the payload, then POSTs it up to `max_retries + 1` times; each
attempt's outcome (HTTP status and body, or a raised network exception) is an
oracle parameter indexed by the attempt number. -/

/-- Outcome of one `requests.post` call, as the source's handlers see it. -/
inductive AttemptOutcome
  | success (body : List Nat)
  | httpError (code : Nat) (body : List Nat)
  | timeout (msg : String)
  | connectionError (msg : String)
  | requestException (msg : String)
  | otherException (msg : String)
  deriving DecidableEq, Repr

/-- The client's classification of a failed attempt, recorded as
`last_exception`. -/
inductive ClientError
  | httpStatus (code : Nat) (msg : Option PyStr)
  | deserializeFailed (e : String)
  | timeout (msg : String)
  | connectionError (msg : String)
  | requestException (msg : String)
  | otherException (msg : String)
  deriving DecidableEq, Repr

/-- The message the client extracts from a non-200 response body: the
`message` field when the body decodes to a dict containing one. -/
def extractServerMessage (body : List Nat) : Option PyStr :=
  match binary_to_dict body with
  | Except.ok d =>
    match d.lookup ("message".toList) with
    | some (PyVal.str m) => some m
    | _ => none
  | Except.error _ => none

/-- What one loop iteration of `send_inference_request` does with the
attempt's outcome: HTTP 200 with a decodable body returns the decoded dict;
everything else is recorded as the attempt's error. -/
def attemptResult (o : AttemptOutcome) : Except ClientError Payload :=
  match o with
  | AttemptOutcome.success body =>
    match binary_to_dict body with
    | Except.ok d => Except.ok d
    | Except.error e => Except.error (ClientError.deserializeFailed e)
  | AttemptOutcome.httpError code body =>
    Except.error (ClientError.httpStatus code (extractServerMessage body))
  | AttemptOutcome.timeout m => Except.error (ClientError.timeout m)
  | AttemptOutcome.connectionError m => Except.error (ClientError.connectionError m)
  | AttemptOutcome.requestException m => Except.error (ClientError.requestException m)
  | AttemptOutcome.otherException m => Except.error (ClientError.otherException m)

/-- Terminal result of `send_inference_request`. -/
inductive SendError
  | encodingFailed (e : String)
  | retriesExhausted (attempts : Nat) (last : Option ClientError)
  deriving DecidableEq, Repr

/-- Trace of one `send_inference_request` call: how many HTTP POu attempts
were made, how many `time.sleep(retry_delay)` pauses were taken, and the
final result. -/
structure SendTrace where
  attempts : Nat
  sleeps : Nat
  result : Except SendError Payload
  deriving Repr

/-- The retry loop `for attempt in range(max_retries + 1)`, with `remaining`
iterations left, the current attempt index, and the recorded
`last_exception`. -/
def requestLoop (outcome : Nat → AttemptOutcome) :
    Nat → Nat → Option ClientError → (Nat × Nat × Except (Option ClientError) Payload)
  | _, 0, last => (0, 0, Except.error last)
  | i, r + 1, last =>
    match attemptResult (outcome i) with
    | Except.ok d => (1, 0, Except.ok d)
    | Except.error e =>
      let sl := if r > 0 then 1 else 0
      let t := requestLoop outcome (i + 1) r (some e)
      (t.1 + 1, t.2.1 + sl, t.2.2)

/-- Model of `request_tools.send_inference_request`.  `ser` is the outcome of
`dict_to_binary(data_dict)` (an oracle, since the source catches any
exception it raises); `outcome i` is what the `i`-th `requests.post` does. -/
def send_inference_request (ser : Except String (List Nat))
    (outcome : Nat → AttemptOutcome) (max_retries : Nat) : SendTrace :=
  match ser with
  | Except.error e => ⟨0, 0, Except.error (SendError.encodingFailed e)⟩
  | Except.ok _ =>
    let t := requestLoop outcome 0 (max_retries + 1) none
    match t.2.2 with
    | Except.ok d => ⟨t.1, t.2.1, Except.ok d⟩
    | Except.error last =>
      ⟨t.1, t.2.1, Except.error (SendError.retriesExhausted (max_retries + 1) last)⟩

/-- An attempt fails when it is not an HTTP 200 carrying a decodable body. -/
def attemptFails (o : AttemptOutcome) : Bool :=
  match attemptResult o with
  | Except.ok _ => false
  | Except.error _ => true

/-! The textual inference server `Flask_Demo1/GPU_LeRobot_SmolVLA_Server.py`.
Its `/infer` endpoint reads a `compressed` request header, gunzips the body if
it says `gzip`, parses JSON, deserializes the dict, runs the policy, and
answers through `encode_request_data`, which always builds its response with
`status=200`.  The `gzip` and `json` libraries are modelled as concrete
lossless codecs (`gunzip (gzip b) = b`, `loads (dumps d) = d`); their byte
layout is immaterial here. -/

/-- Model of `gzip.compress`: a gzip header followed by a length-delimited
copy of the payload (lossless container contract). -/
def gzip_compress (bs : List Nat) : List Nat :=
  31 :: 139 :: encNat bs.length ++ bs

/-- Model of `gzip.decompress`, failing on a malformed container. -/
def gzip_decompress (bs : List Nat) : Except String (List Nat) :=
  match bs with
  | 31 :: 139 :: rest =>
    match decNat rest with
    | some (n, r) =>
      if r.length = n then Except.ok r
      else Except.error "gzip.BadGzipFile: truncated or trailing data"
    | none => Except.error "gzip.BadGzipFile: corrupt stream"
  | _ => Except.error "gzip.BadGzipFile: not a gzipped file"

/-- Model of `json.dumps(...).encode('utf-8')` on the dicts this server
produces (string keys; string, number, or base64-string values): a
self-describing byte dump framed by braces. -/
def json_dumps_bytes (d : Payload) : List Nat :=
  123 :: dict_to_binary d ++ [125]

/-- Model of `json.loads(raw.decode('utf-8'))`, failing on malformed input. -/
def json_loads_bytes (bs : List Nat) : Except String Payload :=
  match bs with
  | 123 :: rest =>
    match decList decEntry rest with
    | some (p, [125]) => Except.ok p
    | _ => Except.error "json.JSONDecodeError: expecting value"
  | _ => Except.error "json.JSONDecodeError: expecting value"

/-- A Flask response as this server builds it: body bytes, HTTP status, and
the `compressed` response header. -/
structure FlaskResponse where
  body : List Nat
  status : Nat
  compressedHeader : String
  deriving Repr

/-- Model of `GPU_LeRobot_SmolVLA_Server.decode_request_data`: gunzip when
the header said so, then JSON-parse and deserialize the dict onto `device`. -/
def decode_request_data (raw_data : List Nat) (compressed : Bool)
    (device : Option PyStr) : Except String Payload :=
  match (if compressed then gzip_decompress raw_data else Except.ok raw_data) with
  | Except.ok raw =>
    match json_loads_bytes raw with
    | Except.ok d => deserialize_dict device d
    | Except.error e => Except.error e
  | Except.error e => Except.error e

/-- Model of `GPU_LeRobot_SmolVLA_Server.encode_request_data`: serialize the
dict, JSON-dump it, gzip it when requested — and always answer with HTTP
status 200, echoing the compression flag in the `compressed` header. -/
def encode_request_data (data : Payload) (compressed : Bool) : FlaskResponse :=
  let resp_bytes := json_dumps_bytes (serialize_dict data)
  let resp_bytes := if compressed then gzip_compress resp_bytes else resp_bytes
  ⟨resp_bytes, 200, if compressed then "gzip" else "raw"⟩

/-- Model of the SmolVLA server's `/infer` handler.  `policy` is the oracle
standing for `smolvla_policy.predict_action_chunk` (any exception it raises,
including the `AttributeError` when no policy is loaded, is an `error`
outcome); `compressedHeaderVal` is the raw `compressed` request header,
compared lowercased against `gzip` as in the source. -/
def smolvla_infer (policy : Payload → Except String NDArray)
    (device : Option PyStr) (compressedHeaderVal : PyStr)
    (raw_data : List Nat) : FlaskResponse :=
  let compressed := compressedHeaderVal.map Char.toLower == "gzip".toList
  match (match decode_request_data raw_data compressed device with
         | Except.ok data => policy data
         | Except.error e => Except.error e) with
  | Except.ok action_chunk =>
    encode_request_data
      [("action_chunk".toList, PyVal.arr action_chunk),
       ("message".toList, PyVal.str "success".toList)] compressed
  | Except.error _ =>
    encode_request_data [("message".toList, PyVal.str "error".toList)] compressed

/-! The binary inference server `server.py`.  Its globals `model` and `device`
become explicit values; `model_inference` (which in the source wraps the
loaded model and may raise arbitrarily) becomes an oracle. -/

/-- An opaque handle to a loaded model (the value of the global `model`). -/
structure ModelHandle where
  id : Nat
  deriving DecidableEq, Repr

/-- The binary server's mutable globals. -/
structure ServerState where
  model : Option ModelHandle
  device : Option PyStr
  deriving DecidableEq, Repr

/-- A plain Flask `Response(...)` of the binary server: body and status. -/
structure BinResponse where
  body : List Nat
  status : Nat
  deriving Repr

/-- The payload `{"status": "error", "message": msg}` the binary server
serializes on failure. -/
def errorPayload (msg : PyStr) : Payload :=
  [("status".toList, PyVal.str "error".toList),
   ("message".toList, PyVal.str msg)]

/-- Step 2 of `server.infer`: arrays are made contiguous (contiguity is by
construction here) and moved to `device` as torch tensors; everything else is
passed through. -/
def prepare_obs (device : Option PyStr) (data : Payload) : Payload :=
  data.map fun e =>
    match e with
    | (k, PyVal.arr a) => (k, PyVal.tensor ⟨a, device⟩)
    | (k, v) => (k, v)

/-- Model of the binary server's `/infer` handler.  `model_inference` is the
oracle for the model invocation (step 3), which may fail with any message;
steps 1 (deserialize), 2 (prepare) and 4 (serialize) are the code's own.  Any
failure is caught and answered as a serialized error payload with status 500;
a missing model short-circuits to status 503 before the request body is ever
decoded. -/
def server_infer (st : ServerState)
    (model_inference : Payload → Except String NDArray)
    (request_data : List Nat) : BinResponse :=
  match st.model with
  | none =>
    ⟨dict_to_binary [("status".toList, PyVal.str "error".toList),
       ("message".toList, PyVal.str "Service not ready".toList)], 503⟩
  | some _ =>
    match binary_to_dict request_data with
    | Except.error e => ⟨dict_to_binary (errorPayload e.toList), 500⟩
    | Except.ok data =>
      let obs := prepare_obs st.device data
      match model_inference obs with
      | Except.error e => ⟨dict_to_binary (errorPayload e.toList), 500⟩
      | Except.ok output =>
        ⟨dict_to_binary [("status".toList, PyVal.str "ok".toList),
           ("output".toList, PyVal.arr output)], 200⟩

/-! The hot-swap endpoint `update_model` of `server.py` and its path-traversal
guard.  POSIX paths are modelled as `List Char`; `os.path.join`,
`os.path.normpath`, `os.path.abspath` and `os.path.commonprefix` are
implemented after their CPython definitions (the POSIX double-slash root
special case is not modelled; no path in this development starts with `//`).
The process's working directory, the `tempfile.TemporaryDirectory()` scratch
path, and the outcome of `load_model` are parameters. -/

/-- Split a path on `/`, keeping empty components, as `str.split('/')`. -/
def splitOnSlash : PyStr → List PyStr
  | [] => [[]]
  | c :: rest =>
    let r := splitOnSlash rest
    if c = '/' then [] :: r
    else
      match r with
      | h :: t => (c :: h) :: t
      | [] => [[c]]

/-- Join components with `/`, as `'/'.join(...)`. -/
def joinSlash (comps : List PyStr) : PyStr := List.intercalate ['/'] comps

/-- One step of `posixpath.normpath`'s component loop. -/
def normStep (initial_slashes : Bool) (acc : List PyStr) (comp : PyStr) :
    List PyStr :=
  if comp = [] ∨ comp = ['.'] then acc
  else if comp ≠ ['.', '.'] ∨ (¬ initial_slashes ∧ acc = []) ∨
      (acc ≠ [] ∧ acc.getLast? = some ['.', '.']) then acc ++ [comp]
  else acc.dropLast

/-- Model of `posixpath.normpath`. -/
def normpath (p : PyStr) : PyStr :=
  if p = [] then ['.']
  else
    let initial_slashes := p.head? = some '/'
    let comps := (splitOnSlash p).foldl (normStep initial_slashes) []
    let path := joinSlash comps
    let path := if initial_slashes then '/' :: path else path
    if path = [] then ['.'] else path

/-- Model of `posixpath.join` on two arguments. -/
def pjoin (a b : PyStr) : PyStr :=
  if b.head? = some '/' then b
  else if a = [] ∨ a.getLast? = some '/' then a ++ b
  else a ++ '/' :: b

/-- Model of `posixpath.abspath`: join onto the working directory when
relative, then normalize. -/
def abspath (cwd p : PyStr) : PyStr :=
  normpath (if p.head? = some '/' then p else pjoin cwd p)

/-- Model of `os.path.commonprefix` on a two-element list: the longest common
character-wise prefix of the two strings. -/
def commonPrefixOf : PyStr → PyStr → PyStr
  | a :: as, b :: bs => if a = b then a :: commonPrefixOf as bs else []
  | _, _ => []

/-- Model of `server.is_within_directory`: the character-wise common prefix of
the two absolute paths must equal the directory — a string test, not a path
test. -/
def is_within_directory (cwd directory target : PyStr) : Bool :=
  let abs_directory := abspath cwd directory
  let abs_target := abspath cwd target
  commonPrefixOf abs_directory abs_target == abs_directory

/-- Model of `server.safe_extract`: vet every member name against the
extraction root before `tar.extractall`; on success, report the resolved
paths the extraction writes. -/
def safe_extract (cwd : PyStr) (members : List PyStr) (path : PyStr) :
    Except String (List PyStr) :=
  if members.all (fun m => is_within_directory cwd path (pjoin path m)) then
    Except.ok (members.map (fun m => abspath cwd (pjoin path m)))
  else Except.error "Attempted Path Traversal in Tar File"

/-- The `/update_model` request: the optional `device` form field and the
optional `file` part (filename plus the names of the tar's members). -/
structure UploadedFile where
  filename : PyStr
  members : List PyStr
  deriving DecidableEq, Repr

/-- A multipart `/update_model` request. -/
structure UpdateRequest where
  deviceField : PyStr
  file : Option UploadedFile
  deriving DecidableEq, Repr

/-- The JSON-ish `{message|error}` reply of `/update_model` plus its HTTP
status. -/
structure UpdateResponse where
  status : Nat
  message : PyStr
  deriving DecidableEq, Repr

/-- Model of `str.strip()` (whitespace at both ends). -/
def pstrip (s : PyStr) : PyStr :=
  ((s.dropWhile Char.isWhitespace).reverse.dropWhile Char.isWhitespace).reverse

/-- Model of `torch.device(device_str)`. -/
def torch_device (device_str : PyStr) : PyStr := device_str

/-- The part of `server.update_model` after the device form field has been
applied: validate the upload, extract with `safe_extract`, and load the new
model.  Returns the new globals, the HTTP reply, and the resolved paths
`tar.extractall` wrote (empty when extraction was refused or never
reached). -/
def update_model_after_device (cwd scratch : PyStr)
    (load : Except PyStr ModelHandle) (st : ServerState)
    (file : Option UploadedFile) : ServerState × UpdateResponse × List PyStr :=
  match file with
  | none => (st, ⟨400, "No file part".toList⟩, [])
  | some f =>
    if f.filename = [] then (st, ⟨400, "No selected file".toList⟩, [])
    else if ¬ (".tar".toList.isSuffixOf f.filename) then
      (st, ⟨400, "Only .tar (uncompressed archive) is allowed".toList⟩, [])
    else
      match safe_extract cwd f.members scratch with
      | Except.error e => (st, ⟨500, e.toList⟩, [])
      | Except.ok extracted =>
        match load with
        | Except.ok new_model =>
          ({ st with model := some new_model },
            ⟨200, "Model updated successfully".toList⟩, extracted)
        | Except.error e => (st, ⟨500, e⟩, extracted)

/-- Model of `server.update_model`.  `cwd` is the process working directory,
`scratch` the `tempfile.TemporaryDirectory()` path, `load` the outcome of
`load_model(model_dir, device)`.  The device form field is applied to the
globals first, before any validation of the upload, exactly as in the
source. -/
def update_model (cwd scratch : PyStr) (load : Except PyStr ModelHandle)
    (st : ServerState) (req : UpdateRequest) :
    ServerState × UpdateResponse × List PyStr :=
  let st := if pstrip req.deviceField ≠ [] then
      { st with device := some (torch_device (pstrip req.deviceField)) }
    else st
  update_model_after_device cwd scratch load st req.file

/-- The descendant relation the specification asks of extracted entries: the
resolved path is the extraction root itself or sits strictly below it.  This
is the specification's notion, stated independently of the code's
`commonPrefixOf` string test, for comparison with it. -/
def isDescendantOf (root p : PyStr) : Bool :=
  p == root || (root ++ ['/']).isPrefixOf p

/-- Decidable equality for `Except`, used to evaluate codec results on
concrete inputs. -/
instance {ε α : Type} [DecidableEq ε] [DecidableEq α] :
    DecidableEq (Except ε α) := fun a b =>
  match a, b with
  | Except.ok x, Except.ok y =>
    if h : x = y then Decidable.isTrue (by rw [h])
    else Decidable.isFalse (by intro c; injection c; exact h (by assumption))
  | Except.error x, Except.error y =>
    if h : x = y then Decidable.isTrue (by rw [h])
    else Decidable.isFalse (by intro c; injection c; exact h (by assumption))
  | Except.ok _, Except.error _ =>
    Decidable.isFalse (by intro c; exact Except.noConfusion c)
  | Except.error _, Except.ok _ =>
    Decidable.isFalse (by intro c; exact Except.noConfusion c)

/-- The binary server's per-request pipeline fails: the body does not
deserialize, or the model invocation on the prepared observation raises. -/
def binary_pipeline_fails (device : Option PyStr)
    (model_inference : Payload → Except String NDArray)
    (request_data : List Nat) : Bool :=
  match binary_to_dict request_data with
  | Except.error _ => true
  | Except.ok data =>
    match model_inference (prepare_obs device data) with
    | Except.error _ => true
    | Except.ok _ => false

/-- The SmolVLA server's per-request pipeline fails: the body does not decode
(gunzip, JSON, or base64 stage), or the policy invocation raises. -/
def smolvla_pipeline_fails (policy : Payload → Except String NDArray)
    (device : Option PyStr) (compressed : Bool)
    (raw_data : List Nat) : Bool :=
  match decode_request_data raw_data compressed device with
  | Except.error _ => true
  | Except.ok data =>
    match policy data with
    | Except.error _ => true
    | Except.ok _ => false

theorem encDigits_append (ds : List Nat) (t rest : List Nat) :
    encDigits ds t ++ rest = encDigits ds (t ++ rest) := by
  induction ds with
  | nil => rfl
  | cons d ds ih => simp [encDigits, List.foldr] at ih ⊢; simp [ih]

theorem decDigits_encDigits (ds rest : List Nat) :
    decDigits (encDigits ds (0 :: rest)) = some (ds, rest) := by
  induction ds with
  | nil => rfl
  | cons d ds ih => simp [encDigits, List.foldr] at ih ⊢; simp [decDigits, ih]

theorem decNat_encNat (n : Nat) (rest : List Nat) :
    decNat (encNat n ++ rest) = some (n, rest) := by
  unfold decNat encNat
  rw [encDigits_append, List.singleton_append, decDigits_encDigits]
  simp [Nat.ofDigits_digits]

theorem encDigits_lt (ds : List Nat) (t : List Nat) (hds : ∀ d ∈ ds, d < 256)
    (ht : ∀ b ∈ t, b < 256) : ∀ b ∈ encDigits ds t, b < 256 := by
  induction ds with
  | nil => exact ht
  | cons d ds ih =>
    intro b hb
    simp only [encDigits, List.foldr, List.mem_cons] at hb
    rcases hb with h | h | h
    · omega
    · exact h ▸ hds d (by simp)
    · exact ih (fun x hx => hds x (by simp [hx])) b h

theorem encNat_lt (n : Nat) : ∀ b ∈ encNat n, b < 256 := by
  refine encDigits_lt _ _ (fun d hd => ?_) (fun b hb => ?_)
  · exact Nat.digits_lt_base (by norm_num) hd
  · simp at hb; omega

theorem foldr_enc_append (f : α → List Nat) (xs : List α) (t rest : List Nat) :
    xs.foldr (fun x acc => f x ++ acc) t ++ rest
      = xs.foldr (fun x acc => f x ++ acc) (t ++ rest) := by
  induction xs with
  | nil => rfl
  | cons x xs ih => simp only [List.foldr, List.append_assoc, ih]

theorem decCount_foldr (f : α → List Nat) (dec : List Nat → Option (α × List Nat))
    (hf : ∀ x rest, dec (f x ++ rest) = some (x, rest)) (xs : List α)
    (rest : List Nat) :
    decCount dec xs.length (xs.foldr (fun x acc => f x ++ acc) rest)
      = some (xs, rest) := by
  induction xs with
  | nil => rfl
  | cons x xs ih => simp only [List.foldr, List.length_cons, decCount, hf, ih]

theorem decList_encCount (f : α → List Nat) (dec : List Nat → Option (α × List Nat))
    (hf : ∀ x rest, dec (f x ++ rest) = some (x, rest)) (xs : List α)
    (rest : List Nat) :
    decList dec (encCount f xs ++ rest) = some (xs, rest) := by
  unfold decList encCount
  rw [List.append_assoc, decNat_encNat, foldr_enc_append, List.nil_append]
  exact decCount_foldr f dec hf xs rest

theorem encCount_lt (f : α → List Nat) (hf : ∀ x, ∀ b ∈ f x, b < 256)
    (xs : List α) : ∀ b ∈ encCount f xs, b < 256 := by
  intro b hb
  unfold encCount at hb
  rcases List.mem_append.mp hb with h | h
  · exact encNat_lt _ b h
  · clear hb
    induction xs with
    | nil => simp at h
    | cons x xs ih =>
      simp only [List.foldr] at h
      rcases List.mem_append.mp h with h2 | h2
      · exact hf x b h2
      · exact ih h2

theorem decChar_encChar (c : Char) (rest : List Nat) :
    decChar (encChar c ++ rest) = some (c, rest) := by
  unfold decChar encChar
  rw [decNat_encNat]
  simp [Char.ofNat_toNat]

theorem decPyStr_encPyStr (s : PyStr) (rest : List Nat) :
    decPyStr (encPyStr s ++ rest) = some (s, rest) :=
  decList_encCount encChar decChar decChar_encChar s rest

theorem decInt_encInt (i : Int) (rest : List Nat) :
    decInt (encInt i ++ rest) = some (i, rest) := by
  cases i <;> simp [encInt, decInt, decNat_encNat]

theorem tagDtype_tag (d : Dtype) : tagDtype d.tag = some d := by
  cases d <;> rfl

theorem decNDArray_encNDArray (a : NDArray) (rest : List Nat) :
    decNDArray (encNDArray a ++ rest) = some (a, rest) := by
  obtain ⟨dt, shape, data⟩ := a
  simp only [encNDArray, decNDArray, List.cons_append, List.append_assoc,
    tagDtype_tag, decList_encCount encNat decNat decNat_encNat]

theorem decOptStr_encOptStr (o : Option PyStr) (rest : List Nat) :
    decOptStr (encOptStr o ++ rest) = some (o, rest) := by
  cases o <;> simp [encOptStr, decOptStr, decPyStr_encPyStr]

theorem decVal_encVal (v : PyVal) (rest : List Nat) :
    decVal (encVal v ++ rest) = some (v, rest) := by
  cases v with
  | str s => simp [encVal, decVal, decPyStr_encPyStr]
  | int i => simp [encVal, decVal, decInt_encInt]
  | float b => simp [encVal, decVal, decNat_encNat]
  | arr a => simp [encVal, decVal, decNDArray_encNDArray]
  | tensor t =>
    simp [encVal, decVal, List.append_assoc, decNDArray_encNDArray,
      decOptStr_encOptStr]

theorem decEntry_encEntry (e : PyStr × PyVal) (rest : List Nat) :
    decEntry (encEntry e ++ rest) = some (e, rest) := by
  obtain ⟨k, v⟩ := e
  simp [encEntry, decEntry, List.append_assoc, decPyStr_encPyStr, decVal_encVal]

theorem binary_to_dict_dict_to_binary (p : Payload) :
    binary_to_dict (dict_to_binary p) = Except.ok p := by
  unfold binary_to_dict dict_to_binary
  rw [← List.append_nil (encCount encEntry p),
    decList_encCount encEntry decEntry decEntry_encEntry]

theorem charSextet_sextetChar_fin :
    ∀ n : Fin 64, charSextet (sextetChar n.val) = some n.val := by decide

theorem sextetChar_ne_pad_fin : ∀ n : Fin 64, sextetChar n.val ≠ '=' := by decide

theorem charSextet_sextetChar {n : Nat} (h : n < 64) :
    charSextet (sextetChar n) = some n :=
  charSextet_sextetChar_fin ⟨n, h⟩

theorem sextetChar_ne_pad {n : Nat} (h : n < 64) : sextetChar n ≠ '=' :=
  sextetChar_ne_pad_fin ⟨n, h⟩

theorem b64_decode_encode : ∀ bs : List Nat, (∀ b ∈ bs, b < 256) →
    b64DecodeChars (b64EncodeBytes bs) = some bs := by
  intro bs
  induction bs using b64EncodeBytes.induct with
  | case1 => intro _; simp [b64EncodeBytes, b64DecodeChars]
  | case2 a =>
    intro h
    have ha : a < 256 := h a (by simp)
    have h1 : a / 4 < 64 := by omega
    have h2 : a % 4 * 16 < 64 := by omega
    simp only [b64EncodeBytes, b64DecodeChars, charSextet_sextetChar h1,
      charSextet_sextetChar h2]
    simp
    omega
  | case3 a b =>
    intro h
    have ha : a < 256 := h a (by simp)
    have hb : b < 256 := h b (by simp)
    have h1 : a / 4 < 64 := by omega
    have h2 : a % 4 * 16 + b / 16 < 64 := by omega
    have h3 : b % 16 * 4 < 64 := by omega
    have hne : sextetChar (b % 16 * 4) ≠ '=' := sextetChar_ne_pad h3
    simp only [b64EncodeBytes, b64DecodeChars, charSextet_sextetChar h1,
      charSextet_sextetChar h2, charSextet_sextetChar h3]
    simp [hne]
    constructor <;> omega
  | case4 a b c rest ih =>
    intro h
    have ha : a < 256 := h a (by simp)
    have hb : b < 256 := h b (by simp)
    have hc : c < 256 := h c (by simp)
    have h1 : a / 4 < 64 := by omega
    have h2 : a % 4 * 16 + b / 16 < 64 := by omega
    have h3 : b % 16 * 4 + c / 64 < 64 := by omega
    have h4 : c % 64 < 64 := by omega
    have hrest : b64DecodeChars (b64EncodeBytes rest) = some rest :=
      ih (fun x hx => h x (by simp [hx]))
    have hne3 : sextetChar (b % 16 * 4 + c / 64) ≠ '=' := sextetChar_ne_pad h3
    have hne4 : sextetChar (c % 64) ≠ '=' := sextetChar_ne_pad h4
    simp only [b64EncodeBytes, b64DecodeChars, charSextet_sextetChar h1,
      charSextet_sextetChar h2, charSextet_sextetChar h3,
      charSextet_sextetChar h4]
    simp [hne3, hne4, hrest]
    refine ⟨by omega, by omega, by omega⟩

theorem encNDArray_lt (a : NDArray) : ∀ b ∈ encNDArray a, b < 256 := by
  intro b hb
  unfold encNDArray at hb
  rcases List.mem_cons.mp hb with h | h
  · subst h; cases a.dtype <;> simp [Dtype.tag]
  · rcases List.mem_append.mp h with h2 | h2
    · exact encCount_lt encNat (fun x => encNat_lt x) a.shape b h2
    · exact encCount_lt encNat (fun x => encNat_lt x) a.data b h2

theorem npySaveBytes_lt (a : NDArray) : ∀ b ∈ npySaveBytes a, b < 256 := by
  intro b hb
  rcases List.mem_append.mp hb with h | h
  · simp [npyMagic] at h; omega
  · exact encNDArray_lt a b h

theorem npyLoadBytes_npySaveBytes (a : NDArray) :
    npyLoadBytes (npySaveBytes a) = Except.ok a := by
  unfold npyLoadBytes npySaveBytes
  rw [if_pos (List.isPrefixOf_iff_prefix.mpr (List.prefix_append _ _))]
  have h6 : (6 : Nat) = npyMagic.length := rfl
  rw [h6, List.drop_left, ← List.append_nil (encNDArray a),
    decNDArray_encNDArray]

theorem deserialize_np_serialize_np (a : NDArray) :
    deserialize_np (serialize_np a) = Except.ok a := by
  unfold deserialize_np serialize_np
  rw [b64_decode_encode (npySaveBytes a) (npySaveBytes_lt a)]
  exact npyLoadBytes_npySaveBytes a

theorem prefix_append_same_length {l1 l2 : List Char} (k : List Char)
    (hlen : l1.length = l2.length) : l1 <+: l2 ++ k ↔ l1 = l2 := by
  constructor
  · intro h
    rw [List.prefix_iff_eq_take] at h
    rw [h, hlen, List.take_left]
  · rintro rfl
    exact List.prefix_append l1 k

theorem npyMarker_isPrefixOf_npy (k : PyStr) :
    npyMarker.isPrefixOf (npyMarker ++ k) = true :=
  List.isPrefixOf_iff_prefix.mpr (List.prefix_append _ _)

theorem torchMarker_isPrefixOf_torch (k : PyStr) :
    torchMarker.isPrefixOf (torchMarker ++ k) = true :=
  List.isPrefixOf_iff_prefix.mpr (List.prefix_append _ _)

theorem npyMarker_isPrefixOf_torch (k : PyStr) :
    npyMarker.isPrefixOf (torchMarker ++ k) = false := by
  rw [Bool.eq_false_iff]
  intro h
  have h2 := (prefix_append_same_length k (by decide)).mp
    (List.isPrefixOf_iff_prefix.mp h)
  exact absurd h2 (by decide)

theorem marker_drop_twelve (m k : PyStr) (hm : m.length = 12) :
    (m ++ k).drop 12 = k := by
  rw [← hm, List.drop_left]

theorem deserialize_dict_serialize_dict (device : Option PyStr) (p : Payload)
    (h : markerFree p = true) :
    deserialize_dict device (serialize_dict p) = Except.ok p := by
  induction p with
  | nil => rfl
  | cons e rest ih =>
    rw [markerFree, List.all_cons, Bool.and_eq_true] at h
    obtain ⟨hk, hrest⟩ := h
    have ihr := ih hrest
    obtain ⟨k, v⟩ := e
    cases v with
    | arr a =>
      simp only [serialize_dict, List.map] at ihr ⊢
      simp only [deserialize_dict, npyMarker_isPrefixOf_npy, if_true,
        deserialize_np_serialize_np, ihr,
        marker_drop_twelve npyMarker k (by decide)]
    | tensor t =>
      exact absurd hk (by simp [markerFreeEntry])
    | str s =>
      simp only [markerFreeEntry, Bool.not_eq_true', Bool.or_eq_false_iff] at hk
      simp only [serialize_dict, List.map] at ihr ⊢
      simp only [deserialize_dict, hk.1, hk.2, Bool.false_eq_true, if_false,
        ihr]
    | int i =>
      simp only [markerFreeEntry, Bool.not_eq_true', Bool.or_eq_false_iff] at hk
      simp only [serialize_dict, List.map] at ihr ⊢
      simp only [deserialize_dict, hk.1, hk.2, Bool.false_eq_true, if_false,
        ihr]
    | float b =>
      simp only [markerFreeEntry, Bool.not_eq_true', Bool.or_eq_false_iff] at hk
      simp only [serialize_dict, List.map] at ihr ⊢
      simp only [deserialize_dict, hk.1, hk.2, Bool.false_eq_true, if_false,
        ihr]

theorem requestLoop_all_fail (outcome : Nat → AttemptOutcome) :
    ∀ (r i : Nat) (last : Option ClientError) (e : ClientError),
    (∀ j, j ≤ r → attemptFails (outcome (i + j)) = true) →
    attemptResult (outcome (i + r)) = Except.error e →
    requestLoop outcome i (r + 1) last = (r + 1, r, Except.error (some e)) := by
  intro r
  induction r with
  | zero =>
    intro i last e _ hlaste
    rw [Nat.add_zero] at hlaste
    simp [requestLoop, hlaste]
  | succ r ih =>
    intro i last e hall hlaste
    cases hfirst : attemptResult (outcome i) with
    | ok d =>
      have h0 := hall 0 (by omega)
      rw [Nat.add_zero] at h0
      simp [attemptFails, hfirst] at h0
    | error e0 =>
      have hrec := ih (i + 1) (some e0) e
        (fun j hj => by
          have := hall (j + 1) (by omega)
          rwa [show i + (j + 1) = i + 1 + j by omega] at this)
        (by rwa [show i + (r + 1) = i + 1 + r by omega] at hlaste)
      simp only [requestLoop, hfirst]
      simp only [requestLoop] at hrec
      rw [hrec]
      simp

theorem gzip_decompress_compress (bs : List Nat) :
    gzip_decompress (gzip_compress bs) = Except.ok bs := by
  unfold gzip_decompress gzip_compress
  simp [decNat_encNat]

theorem json_loads_dumps (d : Payload) :
    json_loads_bytes (json_dumps_bytes d) = Except.ok d := by
  unfold json_loads_bytes json_dumps_bytes
  simp [dict_to_binary, decList_encCount encEntry decEntry decEntry_encEntry]

theorem update_model_after_device_state (cwd scratch : PyStr)
    (load : Except PyStr ModelHandle) (st : ServerState)
    (file : Option UploadedFile) :
    (update_model_after_device cwd scratch load st file).1.device = st.device ∧
    ((update_model_after_device cwd scratch load st file).2.1.status ≠ 200 →
      (update_model_after_device cwd scratch load st file).1.model = st.model) := by
  unfold update_model_after_device
  cases file with
  | none => exact ⟨rfl, fun _ => rfl⟩
  | some f =>
    dsimp only
    by_cases h1 : f.filename = []
    · simp only [h1, if_pos rfl]
      exact ⟨rfl, fun _ => rfl⟩
    · rw [if_neg h1]
      by_cases h2 : ".tar".toList.isSuffixOf f.filename
      · rw [if_neg (by simpa using h2)]
        cases hse : safe_extract cwd f.members scratch with
        | error e => exact ⟨rfl, fun _ => rfl⟩
        | ok extracted =>
          cases load with
          | ok new_model => exact ⟨rfl, fun h => absurd rfl h⟩
          | error e => exact ⟨rfl, fun _ => rfl⟩
      · rw [if_pos (by simpa using h2)]
        exact ⟨rfl, fun _ => rfl⟩

/-- Claim C1 (counterexample).  The claim asserts that decoding the encoding
of any payload of strings, scalars and buffers is value-identical for both
codecs.  It fails for the textual codec: the payload
`{"base64numpy_a": "hi"}` has a plain string value, yet its key carries the
codec's own marker, so `deserialize_dict` treats the string `"hi"` as base64
("hi" is not valid padded base64, so the decode raises instead of returning
the payload). -/
theorem claim_C1_counterexample :
    deserialize_dict (some "cpu".toList)
        (serialize_dict [("base64numpy_a".toList, PyVal.str "hi".toList)]) ≠
      Except.ok [("base64numpy_a".toList, PyVal.str "hi".toList)] := by decide

/-- Claim C1 (amended).  For every payload whose values are strings, scalar
numbers, or contiguous buffers of a supported dtype, and in which no
string- or number-valued key starts with the textual markers `base64numpy_`
or `base64torch_`, decoding the encoding yields a value-identical payload —
for the binary codec (`binary_to_dict` after `dict_to_binary`)
unconditionally, and for the textual codec (`deserialize_dict` after
`serialize_dict`) on every target device. -/
theorem claim_C1_roundtrip (p : Payload) (h : markerFree p = true) :
    binary_to_dict (dict_to_binary p) = Except.ok p ∧
    ∀ device, deserialize_dict device (serialize_dict p) = Except.ok p :=
  ⟨binary_to_dict_dict_to_binary p,
   fun device => deserialize_dict_serialize_dict device p h⟩

/-- Claim C1 (witness): the round-trip theorem applied to a concrete payload
holding an instruction string, an integer, and a 2-element float32 buffer. -/
theorem claim_C1_roundtrip_witness :
    markerFree [("state".toList,
        PyVal.arr ⟨Dtype.float32, [2], [0, 0, 128, 63, 0, 0, 0, 64]⟩),
      ("instruction".toList, PyVal.str "pick".toList),
      ("n".toList, PyVal.int 5)] = true ∧
    (binary_to_dict (dict_to_binary [("state".toList,
        PyVal.arr ⟨Dtype.float32, [2], [0, 0, 128, 63, 0, 0, 0, 64]⟩),
      ("instruction".toList, PyVal.str "pick".toList),
      ("n".toList, PyVal.int 5)]) = Except.ok [("state".toList,
        PyVal.arr ⟨Dtype.float32, [2], [0, 0, 128, 63, 0, 0, 0, 64]⟩),
      ("instruction".toList, PyVal.str "pick".toList),
      ("n".toList, PyVal.int 5)] ∧
     ∀ device, deserialize_dict device (serialize_dict [("state".toList,
        PyVal.arr ⟨Dtype.float32, [2], [0, 0, 128, 63, 0, 0, 0, 64]⟩),
      ("instruction".toList, PyVal.str "pick".toList),
      ("n".toList, PyVal.int 5)]) = Except.ok [("state".toList,
        PyVal.arr ⟨Dtype.float32, [2], [0, 0, 128, 63, 0, 0, 0, 64]⟩),
      ("instruction".toList, PyVal.str "pick".toList),
      ("n".toList, PyVal.int 5)]) :=
  ⟨by decide, claim_C1_roundtrip _ (by decide)⟩

/-- Claim C3.  With `max_retries = N` against an endpoint where every attempt
fails (non-200 status, network exception, or undecodable 200 body), the
client makes exactly `N + 1` HTTP POST attempts, sleeps `N` times, and raises
an error carrying the error recorded for the final attempt; no payload is
returned. -/
theorem claim_C3_retry_bound (body : List Nat) (outcome : Nat → AttemptOutcome)
    (N : Nat) (e : ClientError)
    (hfail : ∀ i, i ≤ N → attemptFails (outcome i) = true)
    (hlast : attemptResult (outcome N) = Except.error e) :
    send_inference_request (Except.ok body) outcome N =
      ⟨N + 1, N, Except.error (SendError.retriesExhausted (N + 1) (some e))⟩ := by
  unfold send_inference_request
  have h := requestLoop_all_fail outcome N 0 none e
    (fun j hj => by simpa using hfail j hj) (by simpa using hlast)
  rw [h]

/-- Claim C3 (witness): with `max_retries = 2` and every attempt answering
HTTP 500, the client makes exactly 3 attempts and fails with the last
recorded HTTP 500 error. -/
theorem claim_C3_retry_bound_witness :
    (∀ i, i ≤ 2 →
      attemptFails ((fun _ => AttemptOutcome.httpError 500 []) i) = true) ∧
    attemptResult ((fun _ => AttemptOutcome.httpError 500 []) 2) =
      Except.error (ClientError.httpStatus 500 none) ∧
    send_inference_request (Except.ok [0])
        (fun _ => AttemptOutcome.httpError 500 []) 2 =
      ⟨3, 2, Except.error (SendError.retriesExhausted 3
        (some (ClientError.httpStatus 500 none)))⟩ :=
  ⟨fun _ _ =>
      (by decide : attemptFails (AttemptOutcome.httpError 500 []) = true),
   (by decide : attemptResult (AttemptOutcome.httpError 500 []) =
      Except.error (ClientError.httpStatus 500 none)),
   claim_C3_retry_bound [0] (fun _ => AttemptOutcome.httpError 500 []) 2
     (ClientError.httpStatus 500 none)
     (fun _ _ =>
       (by decide : attemptFails (AttemptOutcome.httpError 500 []) = true))
     ((by decide : attemptResult (AttemptOutcome.httpError 500 []) =
      Except.error (ClientError.httpStatus 500 none)))⟩

/-- Claim C7.  When serializing the request payload fails, the client raises
immediately with an encoding error: zero HTTP POST attempts and zero retry
sleeps. -/
theorem claim_C7_encoding_failure (e : String) (outcome : Nat → AttemptOutcome)
    (max_retries : Nat) :
    send_inference_request (Except.error e) outcome max_retries =
      ⟨0, 0, Except.error (SendError.encodingFailed e)⟩ := rfl

/-- Claim C5.  When no model handle is loaded, the binary server's `/infer`
answers the fixed serialized `Service not ready` payload with status 503 for
every request body, oracle and device — the response does not depend on the
body, so the wire codec is never consulted for it, and the handler is total
(no crash). -/
theorem claim_C5_service_not_ready (device : Option PyStr)
    (model_inference : Payload → Except String NDArray)
    (request_data : List Nat) :
    server_infer ⟨none, device⟩ model_inference request_data =
      ⟨dict_to_binary [("status".toList, PyVal.str "error".toList),
        ("message".toList, PyVal.str "Service not ready".toList)], 503⟩ := rfl

/-- Claim C4 (counterexample).  The claim asserts that on a pipeline failure
both servers answer with a non-200 status.  The textual base64 server does
not: on an empty (undecodable) body its handler catches the exception and
replies through `encode_request_data`, which hardcodes HTTP status 200. -/
theorem claim_C4_counterexample :
    smolvla_pipeline_fails (fun _ => Except.error "x") (some "cpu".toList)
        false [] = true ∧
    (smolvla_infer (fun _ => Except.error "x") (some "cpu".toList)
        "raw".toList []).status = 200 := by
  exact ⟨by decide, rfl⟩

/-- Claim C4 (amended).  On any pipeline-stage failure both handlers stay
total and answer an encoded structured error payload, but only the binary
server pairs it with a non-200 status (500); the textual base64 server
answers the encoded error payload `{"message": "error"}` with HTTP status
200. -/
theorem claim_C4_error_responses (st : ServerState) (m : ModelHandle)
    (hm : st.model = some m)
    (model_inference : Payload → Except String NDArray)
    (request_data : List Nat)
    (hbin : binary_pipeline_fails st.device model_inference request_data = true)
    (policy : Payload → Except String NDArray) (device : Option PyStr)
    (compressedHeaderVal : PyStr) (raw_data : List Nat)
    (hsmol : smolvla_pipeline_fails policy device
      (compressedHeaderVal.map Char.toLower == "gzip".toList) raw_data = true) :
    (∃ msg, server_infer st model_inference request_data =
      ⟨dict_to_binary (errorPayload msg), 500⟩) ∧
    smolvla_infer policy device compressedHeaderVal raw_data =
      encode_request_data [("message".toList, PyVal.str "error".toList)]
        (compressedHeaderVal.map Char.toLower == "gzip".toList) ∧
    (smolvla_infer policy device compressedHeaderVal raw_data).status = 200 := by
  have hsm : smolvla_infer policy device compressedHeaderVal raw_data =
      encode_request_data [("message".toList, PyVal.str "error".toList)]
        (compressedHeaderVal.map Char.toLower == "gzip".toList) := by
    unfold smolvla_infer
    dsimp only
    unfold smolvla_pipeline_fails at hsmol
    cases hdec : decode_request_data raw_data
        (compressedHeaderVal.map Char.toLower == "gzip".toList) device with
    | error e => rfl
    | ok data =>
      rw [hdec] at hsmol
      dsimp only at hsmol ⊢
      cases hp : policy data with
      | error e => rfl
      | ok out => rw [hp] at hsmol; exact Bool.noConfusion hsmol
  refine ⟨?_, hsm, by rw [hsm]; rfl⟩
  unfold server_infer
  rw [hm]
  unfold binary_pipeline_fails at hbin
  cases hdec : binary_to_dict request_data with
  | error e => exact ⟨e.toList, rfl⟩
  | ok data =>
    rw [hdec] at hbin
    dsimp only at hbin ⊢
    cases hmi : model_inference (prepare_obs st.device data) with
    | error e => exact ⟨e.toList, rfl⟩
    | ok out => rw [hmi] at hbin; exact Bool.noConfusion hbin

/-- Claim C4 (witness): both conclusions at a concrete failing request — the
empty body, which neither codec can decode, and an always-raising model. -/
theorem claim_C4_error_responses_witness :
    (⟨some ⟨0⟩, none⟩ : ServerState).model = some ⟨0⟩ ∧
    binary_pipeline_fails (⟨some ⟨0⟩, none⟩ : ServerState).device
      (fun _ => Except.error "boom") [] = true ∧
    smolvla_pipeline_fails (fun _ => Except.error "x") none
      (("raw".toList : PyStr).map Char.toLower == "gzip".toList) [] = true ∧
    ((∃ msg, server_infer ⟨some ⟨0⟩, none⟩ (fun _ => Except.error "boom") [] =
      ⟨dict_to_binary (errorPayload msg), 500⟩) ∧
     smolvla_infer (fun _ => Except.error "x") none "raw".toList [] =
      encode_request_data [("message".toList, PyVal.str "error".toList)]
        (("raw".toList : PyStr).map Char.toLower == "gzip".toList) ∧
     (smolvla_infer (fun _ => Except.error "x") none "raw".toList []).status
       = 200) :=
  ⟨rfl, by decide, by decide,
   claim_C4_error_responses ⟨some ⟨0⟩, none⟩ ⟨0⟩ rfl
     (fun _ => Except.error "boom") [] (by decide)
     (fun _ => Except.error "x") none "raw".toList [] (by decide)⟩

/-- Claim C8.  Transport-level gzip, selected by the `compressed` header flag
and applied to the fully encoded message, is transparent: decoding the
compressed encoding of a payload gives exactly the same result as decoding
its raw encoding, for every payload and device. -/
theorem claim_C8_compression_transparency (data : Payload)
    (device : Option PyStr) :
    decode_request_data (encode_request_data data true).body true device =
      decode_request_data (encode_request_data data false).body false device := by
  unfold encode_request_data decode_request_data
  simp [gzip_decompress_compress]

/-- Claim C2 (counterexample).  The claim asserts that every archive entry
resolving outside the scratch directory aborts the hot-swap before anything
is written.  The guard is a character-wise `commonprefix` string test, so an
entry `../tmpabcX` escapes a scratch directory `/tmp/tmpabc`: it resolves to
the sibling `/tmp/tmpabcX` — not a descendant of the scratch directory — yet
the request completes with status 200, extracts to that outside path, and
swaps the model. -/
theorem claim_C2_counterexample :
    update_model "/".toList "/tmp/tmpabc".toList (Except.ok ⟨1⟩)
        ⟨some ⟨0⟩, some "cpu".toList⟩
        ⟨[], some ⟨"model.tar".toList, ["../tmpabcX".toList]⟩⟩ =
      (⟨some ⟨1⟩, some "cpu".toList⟩,
        ⟨200, "Model updated successfully".toList⟩, ["/tmp/tmpabcX".toList]) ∧
    isDescendantOf "/tmp/tmpabc".toList "/tmp/tmpabcX".toList = false := by
  decide

/-- Claim C2 (amended).  For every uploaded `.tar` archive containing at
least one entry that fails the code's `is_within_directory` commonprefix
test against the scratch directory (which covers `../evil` and absolute-path
entries, but not sibling paths extending the scratch directory's name), the
hot-swap aborts with status 500 and the traversal message before
`extractall` runs: no entry is extracted and the serving model handle is
unchanged. -/
theorem claim_C2_traversal_guard (cwd scratch : PyStr)
    (load : Except PyStr ModelHandle) (st : ServerState) (f : UploadedFile)
    (deviceField : PyStr) (hname : f.filename ≠ [])
    (htar : ".tar".toList.isSuffixOf f.filename = true)
    (hbad : ¬ ∀ m ∈ f.members,
      is_within_directory cwd scratch (pjoin scratch m) = true) :
    (update_model cwd scratch load st ⟨deviceField, some f⟩).2.1 =
      ⟨500, "Attempted Path Traversal in Tar File".toList⟩ ∧
    (update_model cwd scratch load st ⟨deviceField, some f⟩).2.2 = [] ∧
    (update_model cwd scratch load st ⟨deviceField, some f⟩).1.model =
      st.model := by
  have hall : f.members.all
      (fun m => is_within_directory cwd scratch (pjoin scratch m)) = false := by
    rw [Bool.eq_false_iff]
    intro h
    exact hbad (fun m hm => List.all_eq_true.mp h m hm)
  unfold update_model update_model_after_device safe_extract
  dsimp only
  rw [if_neg hname, if_neg (by simpa using htar), if_neg (by simp [hall])]
  refine ⟨rfl, rfl, ?_⟩
  dsimp only
  split <;> rfl

/-- Claim C2 (witness): the guard theorem at a concrete request whose archive
holds the entry `../evil`, which the commonprefix test does reject. -/
theorem claim_C2_traversal_guard_witness :
    (("model.tar".toList : PyStr) ≠ []) ∧
    (".tar".toList.isSuffixOf ("model.tar".toList : PyStr) = true) ∧
    (¬ ∀ m ∈ (["../evil".toList] : List PyStr),
      is_within_directory "/".toList "/tmp/tmpabc".toList
        (pjoin "/tmp/tmpabc".toList m) = true) ∧
    ((update_model "/".toList "/tmp/tmpabc".toList (Except.ok ⟨1⟩)
        ⟨some ⟨0⟩, none⟩
        ⟨[], some ⟨"model.tar".toList, ["../evil".toList]⟩⟩).2.1 =
      ⟨500, "Attempted Path Traversal in Tar File".toList⟩ ∧
     (update_model "/".toList "/tmp/tmpabc".toList (Except.ok ⟨1⟩)
        ⟨some ⟨0⟩, none⟩
        ⟨[], some ⟨"model.tar".toList, ["../evil".toList]⟩⟩).2.2 = [] ∧
     (update_model "/".toList "/tmp/tmpabc".toList (Except.ok ⟨1⟩)
        ⟨some ⟨0⟩, none⟩
        ⟨[], some ⟨"model.tar".toList, ["../evil".toList]⟩⟩).1.model =
      (⟨some ⟨0⟩, none⟩ : ServerState).model) :=
  ⟨by decide, by decide, by decide,
   claim_C2_traversal_guard "/".toList "/tmp/tmpabc".toList (Except.ok ⟨1⟩)
     ⟨some ⟨0⟩, none⟩ ⟨"model.tar".toList, ["../evil".toList]⟩ []
     (by decide) (by decide) (by decide)⟩

/-- Claim C6.  When the archive passes validation and extraction but loading
the new model raises, `/update_model` answers status 500 carrying the load
error, the previously active model handle is untouched, and every subsequent
`/infer` request is served against that old handle. -/
theorem claim_C6_load_failure (cwd scratch : PyStr) (e : PyStr)
    (st : ServerState) (f : UploadedFile) (deviceField : PyStr)
    (hname : f.filename ≠ [])
    (htar : ".tar".toList.isSuffixOf f.filename = true)
    (hok : ∀ m ∈ f.members,
      is_within_directory cwd scratch (pjoin scratch m) = true) :
    (update_model cwd scratch (Except.error e) st ⟨deviceField, some f⟩).2.1 =
      ⟨500, e⟩ ∧
    (update_model cwd scratch (Except.error e) st ⟨deviceField, some f⟩).1.model
      = st.model ∧
    ∀ d model_inference request_data,
      server_infer ⟨(update_model cwd scratch (Except.error e) st
          ⟨deviceField, some f⟩).1.model, d⟩ model_inference request_data =
        server_infer ⟨st.model, d⟩ model_inference request_data := by
  have hall : f.members.all
      (fun m => is_within_directory cwd scratch (pjoin scratch m)) = true :=
    List.all_eq_true.mpr hok
  unfold update_model update_model_after_device safe_extract
  dsimp only
  rw [if_neg hname, if_neg (by simpa using htar), if_pos (by simp [hall])]
  refine ⟨rfl, ?_, ?_⟩
  · dsimp only
    split <;> rfl
  · intro d model_inference request_data
    dsimp only
    split <;> rfl

/-- Claim C6 (witness): a concrete request whose single entry `sub/file`
stays inside the scratch directory, with a failing load. -/
theorem claim_C6_load_failure_witness :
    (("model.tar".toList : PyStr) ≠ []) ∧
    (".tar".toList.isSuffixOf ("model.tar".toList : PyStr) = true) ∧
    (∀ m ∈ (["sub/file".toList] : List PyStr),
      is_within_directory "/".toList "/tmp/tmpabc".toList
        (pjoin "/tmp/tmpabc".toList m) = true) ∧
    ((update_model "/".toList "/tmp/tmpabc".toList
        (Except.error "ModelLoadError".toList) ⟨some ⟨0⟩, none⟩
        ⟨[], some ⟨"model.tar".toList, ["sub/file".toList]⟩⟩).2.1 =
      ⟨500, "ModelLoadError".toList⟩ ∧
     (update_model "/".toList "/tmp/tmpabc".toList
        (Except.error "ModelLoadError".toList) ⟨some ⟨0⟩, none⟩
        ⟨[], some ⟨"model.tar".toList, ["sub/file".toList]⟩⟩).1.model =
      (⟨some ⟨0⟩, none⟩ : ServerState).model ∧
     ∀ d model_inference request_data,
      server_infer ⟨(update_model "/".toList "/tmp/tmpabc".toList
          (Except.error "ModelLoadError".toList) ⟨some ⟨0⟩, none⟩
          ⟨[], some ⟨"model.tar".toList, ["sub/file".toList]⟩⟩).1.model, d⟩
          model_inference request_data =
        server_infer ⟨(⟨some ⟨0⟩, none⟩ : ServerState).model, d⟩
          model_inference request_data) :=
  ⟨by decide, by decide, by decide,
   claim_C6_load_failure "/".toList "/tmp/tmpabc".toList
     "ModelLoadError".toList ⟨some ⟨0⟩, none⟩
     ⟨"model.tar".toList, ["sub/file".toList]⟩ []
     (by decide) (by decide) (by decide)⟩

/-- Claim C10.  A non-empty `device` form field reassigns the process-wide
device before the upload is validated, so it sticks even when the request
then fails: the resulting state's device is the newly supplied one, a
non-200 outcome leaves the old model serving, and any subsequent `/infer`
prepares its tensors on the newly supplied device. -/
theorem claim_C10_device_reassigned (cwd scratch : PyStr)
    (load : Except PyStr ModelHandle) (st : ServerState) (req : UpdateRequest)
    (hdev : pstrip req.deviceField ≠ []) :
    (update_model cwd scratch load st req).1.device =
      some (torch_device (pstrip req.deviceField)) ∧
    ((update_model cwd scratch load st req).2.1.status ≠ 200 →
      (update_model cwd scratch load st req).1.model = st.model) ∧
    ∀ data, prepare_obs (update_model cwd scratch load st req).1.device data =
      prepare_obs (some (torch_device (pstrip req.deviceField))) data := by
  have hum : update_model cwd scratch load st req =
      update_model_after_device cwd scratch load
        { st with device := some (torch_device (pstrip req.deviceField)) }
        req.file := by
    simp only [update_model, if_pos hdev]
  have hstate := update_model_after_device_state cwd scratch load
    { st with device := some (torch_device (pstrip req.deviceField)) } req.file
  rw [hum]
  exact ⟨hstate.1, fun h => hstate.2 h, fun data => by rw [hstate.1]⟩

/-- Claim C10 (witness): a request with device `cuda:0` and no file part —
the upload fails with 400 yet the device is already reassigned and the old
model keeps serving. -/
theorem claim_C10_device_reassigned_witness :
    (pstrip ("cuda:0".toList : PyStr) ≠ []) ∧
    ((update_model "/".toList "/tmp/tmpabc".toList (Except.ok ⟨1⟩)
        ⟨some ⟨0⟩, some "cpu".toList⟩ ⟨"cuda:0".toList, none⟩).1.device =
      some (torch_device (pstrip "cuda:0".toList)) ∧
     ((update_model "/".toList "/tmp/tmpabc".toList (Except.ok ⟨1⟩)
        ⟨some ⟨0⟩, some "cpu".toList⟩ ⟨"cuda:0".toList, none⟩).2.1.status ≠ 200
       → (update_model "/".toList "/tmp/tmpabc".toList (Except.ok ⟨1⟩)
        ⟨some ⟨0⟩, some "cpu".toList⟩ ⟨"cuda:0".toList, none⟩).1.model =
        (⟨some ⟨0⟩, some "cpu".toList⟩ : ServerState).model) ∧
     ∀ data, prepare_obs (update_model "/".toList "/tmp/tmpabc".toList
        (Except.ok ⟨1⟩) ⟨some ⟨0⟩, some "cpu".toList⟩
        ⟨"cuda:0".toList, none⟩).1.device data =
      prepare_obs (some (torch_device (pstrip "cuda:0".toList))) data) :=
  ⟨by decide,
   claim_C10_device_reassigned "/".toList "/tmp/tmpabc".toList (Except.ok ⟨1⟩)
     ⟨some ⟨0⟩, some "cpu".toList⟩ ⟨"cuda:0".toList, none⟩ (by decide)⟩
